import Mathlib

/-!
Verification development for the Christmas-Tree repository
(procedural fractal geometry generation and bake/load pipeline).

Shallow embedding conventions:
* JavaScript numbers are modelled as rationals (ℚ).  Transcendental
  library functions (Math.cos, Math.sin, Math.sqrt, Math.pow(·,1.2),
  Math.PI) are abstracted as an explicit record of functions `MathOps`
  passed to the generators; every property proved below holds for all
  instantiations of those functions.
* JavaScript typed arrays are modelled as lists; `Float32Array.set`
  becomes an in-bounds slice write (`setSlice`); an out-of-bounds write
  (which throws in JS) leaves the buffer unchanged.
* `x || d` on numbers (falsy when 0 / undefined) is modelled by
  `jsOr*` on `Option` values, where `none` stands for a missing or
  undefined key.
-/

/-- 3-component vector, mirroring THREE.Vector3. -/
structure Vec3 where
  x : ℚ
  y : ℚ
  z : ℚ
deriving DecidableEq, Repr

/-- Quaternion, mirroring THREE.Quaternion (x, y, z, w). -/
structure Quat where
  x : ℚ
  y : ℚ
  z : ℚ
  w : ℚ
deriving DecidableEq, Repr

/-- Abstracted transcendental operations of the JavaScript Math library.
The generators are parametric in these; none of the proved statements
depend on their values. -/
structure MathOps where
  cos : ℚ → ℚ
  sin : ℚ → ℚ
  sqrt : ℚ → ℚ
  /-- Math.pow(x, 1.2), used for the concave taper. -/
  pow12 : ℚ → ℚ
  /-- Math.PI. -/
  pi : ℚ

/-- A trivial instantiation of the abstract math operations, used to
evaluate the embedding on concrete inputs. -/
def trivOps : MathOps :=
  { cos := fun _ => 0, sin := fun _ => 0, sqrt := fun _ => 0,
    pow12 := fun _ => 0, pi := 0 }

def addV (a b : Vec3) : Vec3 := ⟨a.x + b.x, a.y + b.y, a.z + b.z⟩

def smulV (a : Vec3) (k : ℚ) : Vec3 := ⟨a.x * k, a.y * k, a.z * k⟩

/-- THREE.Vector3.lerp: componentwise `a + (b - a) * t`. -/
def lerpV (a b : Vec3) (t : ℚ) : Vec3 :=
  ⟨a.x + (b.x - a.x) * t, a.y + (b.y - a.y) * t, a.z + (b.z - a.z) * t⟩

/-- THREE.Vector3.applyQuaternion:
`t = 2 * cross(q.xyz, v)`, result `v + q.w * t + cross(q.xyz, t)`. -/
def applyQuaternion (v : Vec3) (q : Quat) : Vec3 :=
  let tx := 2 * (q.y * v.z - q.z * v.y)
  let ty := 2 * (q.z * v.x - q.x * v.z)
  let tz := 2 * (q.x * v.y - q.y * v.x)
  ⟨v.x + q.w * tx + q.y * tz - q.z * ty,
   v.y + q.w * ty + q.z * tx - q.x * tz,
   v.z + q.w * tz + q.x * ty - q.y * tx⟩

/-- THREE.Vector3.length = Math.sqrt(x*x + y*y + z*z), with the sqrt
abstracted in `ops`. -/
def lengthV (ops : MathOps) (v : Vec3) : ℚ :=
  ops.sqrt (v.x * v.x + v.y * v.y + v.z * v.z)

/-- THREE.Vector3.normalize = divideScalar(length || 1). -/
def normalizeV (ops : MathOps) (v : Vec3) : Vec3 :=
  let l := lengthV ops v
  let d := if l = 0 then 1 else l
  ⟨v.x / d, v.y / d, v.z / d⟩

/-- THREE.Quaternion.normalize: divide by the length, or return the
identity quaternion when the length is 0. -/
def normalizeQ (ops : MathOps) (q : Quat) : Quat :=
  let l := ops.sqrt (q.x * q.x + q.y * q.y + q.z * q.z + q.w * q.w)
  if l = 0 then ⟨0, 0, 0, 1⟩ else ⟨q.x / l, q.y / l, q.z / l, q.w / l⟩

/-- Number.EPSILON. -/
def epsJS : ℚ := 1 / 2 ^ 52

/-- THREE.Quaternion.setFromUnitVectors. -/
def setFromUnitVectors (ops : MathOps) (vFrom vTo : Vec3) : Quat :=
  let r := (vFrom.x * vTo.x + vFrom.y * vTo.y + vFrom.z * vTo.z) + 1
  let q : Quat :=
    if r < epsJS then
      if |vFrom.x| > |vFrom.z| then ⟨-vFrom.y, vFrom.x, 0, 0⟩
      else ⟨0, -vFrom.z, vFrom.y, 0⟩
    else
      ⟨vFrom.y * vTo.z - vFrom.z * vTo.y,
       vFrom.z * vTo.x - vFrom.x * vTo.z,
       vFrom.x * vTo.y - vFrom.y * vTo.x, r⟩
  normalizeQ ops q

/-- THREE.Matrix4.compose(position, quaternion, scale), returned in the
element order of Matrix4.toArray (column-major, translation in
elements 12..14). -/
def composeMat (p : Vec3) (q : Quat) (s : Vec3) : List ℚ :=
  let x2 := q.x + q.x
  let y2 := q.y + q.y
  let z2 := q.z + q.z
  let xx := q.x * x2
  let xy := q.x * y2
  let xz := q.x * z2
  let yy := q.y * y2
  let yz := q.y * z2
  let zz := q.z * z2
  let wx := q.w * x2
  let wy := q.w * y2
  let wz := q.w * z2
  [(1 - (yy + zz)) * s.x, (xy + wz) * s.x, (xz - wy) * s.x, 0,
   (xy - wz) * s.y, (1 - (xx + zz)) * s.y, (yz + wx) * s.y, 0,
   (xz + wy) * s.z, (yz - wx) * s.z, (1 - (xx + yy)) * s.z, 0,
   p.x, p.y, p.z, 1]

/-- Effective tree generation parameters (src/spiralTree.js, this.params
after construction).  coneColor is omitted (never used by generation). -/
structure TreeParams where
  maxLevel : ℤ
  height : ℚ
  radius : ℚ
  ringCount : ℕ
  branchesPerRing : ℕ
  ringOffset : ℚ
  scaleFactor : ℚ
  taperStart : ℚ
  spineWidthRatio : ℚ
deriving DecidableEq, Repr

/-- The JS expression `(ringCount - 1 || 1)`: the denominator of the
ring parameter `t`, replaced by 1 exactly when `ringCount - 1` is 0. -/
def jsDenom (ringCount : ℕ) : ℚ :=
  if (ringCount : ℚ) - 1 = 0 then 1 else (ringCount : ℚ) - 1

/-- One generated tree node: world position, world rotation, scale
(spec: Segment). -/
structure Segment where
  pos : Vec3
  rot : Quat
  scale : Vec3

/-- The visual scale of an emitted cone: structural scale with x and z
multiplied by spineWidthRatio (src/spiralTree.js lines 94-96). -/
def visualScale (p : TreeParams) (parentScale : Vec3) : Vec3 :=
  ⟨parentScale.x * p.spineWidthRatio, parentScale.y, parentScale.z * p.spineWidthRatio⟩

/-- The child Segment computed for ring `i`, branch `j`
(src/spiralTree.js lines 112-159).  `effectiveT` is computed but never
used, exactly as in the source. -/
def childSegment (p : TreeParams) (ops : MathOps)
    (parentPos : Vec3) (parentRot : Quat) (parentScale : Vec3) (i j : ℕ) : Segment :=
  let t : ℚ := (i : ℚ) / jsDenom p.ringCount
  let currentHeight := parentScale.y
  let currentRadius := parentScale.x * p.spineWidthRatio
  let localY := t * currentHeight
  let effectiveT := max 0 ((t - p.taperStart) / (1 - p.taperStart))
  let radiusAtY := currentRadius * ops.pow12 (1 - t)
  let ringRotationOffset := (i : ℚ) * p.ringOffset
  let angle := ((j : ℚ) / (p.branchesPerRing : ℚ)) * ops.pi * 2 + ringRotationOffset
  let localX := ops.cos angle * radiusAtY
  let localZ := ops.sin angle * radiusAtY
  let localPos : Vec3 := ⟨localX, localY, localZ⟩
  let worldOffset := applyQuaternion localPos parentRot
  let childPos := addV parentPos worldOffset
  let outwardLocal := normalizeV ops ⟨ops.cos angle, 0, ops.sin angle⟩
  let outwardWorld := applyQuaternion outwardLocal parentRot
  let upWorld := applyQuaternion ⟨0, 1, 0⟩ parentRot
  let targetDir := normalizeV ops (lerpV outwardWorld upWorld t)
  let childRot := setFromUnitVectors ops ⟨0, 1, 0⟩ targetDir
  let sizeDecay := (1 - t) * (7 / 10) + 3 / 10
  let scaleFactor := p.scaleFactor * sizeDecay
  let childScale := smulV parentScale scaleFactor
  let _ := effectiveT
  ⟨childPos, childRot, childScale⟩

/-- FractalTree.recursiveGeneration (src/spiralTree.js lines 87-165):
returns early when `level >= maxLevel`, otherwise emits the parent's
composed matrix and recurses over `ringCount × branchesPerRing`
children in ring-major order. -/
def recursiveGeneration (p : TreeParams) (ops : MathOps)
    (parentPos : Vec3) (parentRot : Quat) (parentScale : Vec3) (level : ℤ) : List (List ℚ) :=
  if _h : p.maxLevel ≤ level then []
  else
    composeMat parentPos parentRot (visualScale p parentScale) ::
      (List.range p.ringCount).flatMap (fun i =>
        (List.range p.branchesPerRing).flatMap (fun j =>
          let c := childSegment p ops parentPos parentRot parentScale i j
          recursiveGeneration p ops c.pos c.rot c.scale (level + 1)))
termination_by (p.maxLevel - level).toNat
decreasing_by simp_wf; omega

/-- FractalTree.generate (src/spiralTree.js lines 57-84): the root is
at the origin with identity rotation and scale (radius, height, radius),
expanded starting at level 0.  The returned list is the InstanceSet. -/
def generate (p : TreeParams) (ops : MathOps) : List (List ℚ) :=
  recursiveGeneration p ops ⟨0, 0, 0⟩ ⟨0, 0, 0, 1⟩ ⟨p.radius, p.height, p.radius⟩ 0

/-- A tree parameter set with maxLevel 0 (remaining values from
CONFIG.tree with ringOffset flattened to 0 for concreteness). -/
def treeParamsZero : TreeParams :=
  { maxLevel := 0, height := 30, radius := 5 / 2, ringCount := 12,
    branchesPerRing := 9, ringOffset := 0, scaleFactor := 1 / 2,
    taperStart := 1 / 10, spineWidthRatio := 1 }

/-- The C4 scenario parameter set: maxLevel 1, ringCount 1,
branchesPerRing 4, scaleFactor 0.5, arbitrary radius and height,
remaining parameters at their built-in defaults. -/
def treeScenarioParams (r h : ℚ) : TreeParams :=
  { maxLevel := 1, height := h, radius := r, ringCount := 1,
    branchesPerRing := 4, ringOffset := 0, scaleFactor := 1 / 2,
    taperStart := 0, spineWidthRatio := 1 }

theorem flatMap_congr {α β : Type} {l : List α} {f g : α → List β}
    (h : ∀ a ∈ l, f a = g a) : l.flatMap f = l.flatMap g := by
  induction l with
  | nil => rfl
  | cons x xs ih => simp_all

/-- C1 (counterexample): with maxLevel = 0 the generated InstanceSet is
empty — length 0, not 1 — because the depth check precedes the root
emission.  This refutes "produces an InstanceSet of length exactly 1"
and "generation never returns an empty InstanceSet". -/
theorem maxLevelZero_empty_counterexample :
    generate treeParamsZero trivOps = [] ∧
      (generate treeParamsZero trivOps).length ≠ 1 := by
  have hgen : generate treeParamsZero trivOps = [] := by
    rw [generate, recursiveGeneration]
    simp [treeParamsZero]
  exact ⟨hgen, by rw [hgen]; decide⟩

/-- C1 (amended): for every parameter set with maxLevel ≤ 0, tree
generation (recursiveGeneration started at the root) produces an empty
InstanceSet of length 0: the depth check `level >= maxLevel` precedes
the root emission, so nothing at all is emitted. -/
theorem maxLevel_nonpos_generates_empty (p : TreeParams) (ops : MathOps)
    (hp : p.maxLevel ≤ 0) : generate p ops = [] := by
  rw [generate, recursiveGeneration]
  exact dif_pos hp

/-- Witness for C1 (amended) at the concrete parameter set
`treeParamsZero` (maxLevel = 0). -/
theorem maxLevel_nonpos_generates_empty_witness :
    treeParamsZero.maxLevel ≤ 0 ∧ generate treeParamsZero trivOps = [] :=
  ⟨by decide, maxLevel_nonpos_generates_empty treeParamsZero trivOps (by decide)⟩

/-- C4 (counterexample): for maxLevel=1, ringCount=1, branchesPerRing=4,
scaleFactor=0.5 (radius 4, height 10), generation produces exactly 1
entry, not 1 + 4 = 5: the four children are generated at level 1, where
the depth check `level >= maxLevel` cuts them off before emission. -/
theorem scenario_five_entries_counterexample :
    (generate (treeScenarioParams 4 10) trivOps).length = 1 ∧
      (generate (treeScenarioParams 4 10) trivOps).length ≠ 5 := by
  have hgen : generate (treeScenarioParams 4 10) trivOps =
      [[4, 0, 0, 0, 0, 10, 0, 0, 0, 0, 4, 0, 0, 0, 0, 1]] := by
    rw [generate, recursiveGeneration]
    rw [dif_neg (by simp [treeScenarioParams])]
    have htail : ∀ pos rot scale,
        recursiveGeneration (treeScenarioParams 4 10) trivOps pos rot scale (0 + 1) = [] := by
      intro pos rot scale
      rw [recursiveGeneration]
      exact dif_pos (by norm_num [treeScenarioParams])
    simp only [htail]
    simp [composeMat, visualScale, treeScenarioParams]
  rw [hgen]
  decide

/-- C4 (amended): for maxLevel=1, ringCount=1, branchesPerRing=4,
scaleFactor=0.5 and any root radius r and height h, generation produces
an InstanceSet with exactly one entry: the identity-rotated root with
scale (r, h, r) (its composed column-major matrix).  The four ring-0
children are computed by the recursion but contribute no entries,
because they sit at level 1 = maxLevel and the depth check precedes
emission. -/
theorem scenario_maxLevel_one_rootOnly (r h : ℚ) (ops : MathOps) :
    generate (treeScenarioParams r h) ops =
      [[r, 0, 0, 0, 0, h, 0, 0, 0, 0, r, 0, 0, 0, 0, 1]] := by
  rw [generate, recursiveGeneration]
  rw [dif_neg (by simp [treeScenarioParams])]
  have htail : ∀ pos rot scale,
      recursiveGeneration (treeScenarioParams r h) ops pos rot scale (0 + 1) = [] := by
    intro pos rot scale
    rw [recursiveGeneration]
    exact dif_pos (by norm_num [treeScenarioParams])
  simp only [htail]
  simp [composeMat, visualScale, treeScenarioParams]

theorem taperStart_aux : ∀ (n : ℕ) (p : TreeParams) (ts : ℚ) (ops : MathOps)
    (pos : Vec3) (rot : Quat) (scale : Vec3) (level : ℤ),
    (p.maxLevel - level).toNat = n →
    recursiveGeneration { p with taperStart := ts } ops pos rot scale level =
      recursiveGeneration p ops pos rot scale level := by
  intro n
  induction n using Nat.strong_induction_on with
  | _ n ih =>
    intro p ts ops pos rot scale level hn
    rw [recursiveGeneration, recursiveGeneration]
    by_cases hle : p.maxLevel ≤ level
    · rw [dif_pos hle,
        dif_pos (show ({ p with taperStart := ts } : TreeParams).maxLevel ≤ level from hle)]
    · rw [dif_neg hle,
        dif_neg (show ¬ ({ p with taperStart := ts } : TreeParams).maxLevel ≤ level from hle)]
      show composeMat pos rot (visualScale p scale) :: _ = _
      congr 1
      apply flatMap_congr
      intro i _
      apply flatMap_congr
      intro j _
      show recursiveGeneration { p with taperStart := ts } ops _ _ _ (level + 1) =
        recursiveGeneration p ops _ _ _ (level + 1)
      exact ih (p.maxLevel - (level + 1)).toNat (by omega) p ts ops _ _ _ (level + 1) rfl

/-- C8: two tree generation runs whose parameter sets agree on every
field except taperStart produce identical InstanceSets.  The computed
`effectiveT` taper-start adjustment is dead code: taperStart has no
influence on any emitted transform. -/
theorem taperStart_has_no_effect (p q : TreeParams) (ops : MathOps)
    (hML : q.maxLevel = p.maxLevel) (hH : q.height = p.height)
    (hR : q.radius = p.radius) (hRC : q.ringCount = p.ringCount)
    (hBR : q.branchesPerRing = p.branchesPerRing) (hRO : q.ringOffset = p.ringOffset)
    (hSF : q.scaleFactor = p.scaleFactor) (hSW : q.spineWidthRatio = p.spineWidthRatio) :
    generate q ops = generate p ops := by
  have hq : q = { p with taperStart := q.taperStart } := by
    cases p; cases q; simp_all
  rw [hq]
  exact taperStart_aux (p.maxLevel - 0).toNat p q.taperStart ops
    ⟨0, 0, 0⟩ ⟨0, 0, 0, 1⟩ ⟨p.radius, p.height, p.radius⟩ 0 rfl

/-- Witness for C8: the concrete CONFIG-like parameter set with
taperStart 1/10 versus the same set with taperStart 1/2. -/
theorem taperStart_has_no_effect_witness :
    generate { treeParamsZero with maxLevel := 2, taperStart := 1 / 2 } trivOps =
      generate { treeParamsZero with maxLevel := 2 } trivOps :=
  taperStart_has_no_effect { treeParamsZero with maxLevel := 2 }
    { treeParamsZero with maxLevel := 2, taperStart := 1 / 2 } trivOps
    rfl rfl rfl rfl rfl rfl rfl rfl

/-- C9: for every ringCount ≥ 1 the denominator `(ringCount - 1 || 1)`
of the per-ring parameter t is nonzero (the JS guard replaces the zero
denominator by 1 exactly when ringCount = 1), and for ringCount = 1 the
sole ring i = 0 gets t = 0.  In this rational embedding generation is
total by construction, so no NaN can be propagated into the emitted
transforms. -/
theorem ringDenominator_nonzero (rc : ℕ) (_h : 1 ≤ rc) :
    jsDenom rc ≠ 0 ∧ (rc = 1 → ∀ i, i < rc → (i : ℚ) / jsDenom rc = 0) := by
  refine ⟨?_, ?_⟩
  · unfold jsDenom
    by_cases hc : (rc : ℚ) - 1 = 0
    · rw [if_pos hc]; exact one_ne_zero
    · rw [if_neg hc]; exact hc
  · intro h1 i hi
    have hi0 : i = 0 := by omega
    subst hi0
    simp

/-- Witness for C9 at ringCount = 1. -/
theorem ringDenominator_nonzero_witness :
    (1 : ℕ) ≤ 1 ∧ jsDenom 1 ≠ 0 ∧ ((0 : ℕ) : ℚ) / jsDenom 1 = 0 := by
  have h := ringDenominator_nonzero 1 (by decide)
  exact ⟨by decide, h.1, h.2 rfl 0 (by decide)⟩

/-- FractalTree.getMatrices (src/spiralTree.js lines 171-177): writes
each stored 4x4 matrix (16 floats, Matrix4.toArray order) into a flat
array at offset 16·i; for length-16 rows this is concatenation. -/
def getMatrices (matrices : List (List ℚ)) : List ℚ :=
  matrices.flatMap id

/-- The 16-float matrix of instance `i` inside an InstancedMesh's flat
instanceMatrix buffer. -/
def instanceMatrixAt (data : List ℚ) (i : ℕ) : List ℚ :=
  ((data.drop (16 * i)).take 16)

/-- The observable state of a FractalTree object: the retained
`this.matrices` list, the instance count of the InstancedMesh, and the
flat contents of its instanceMatrix attribute. -/
structure TreeState where
  matrices : List (List ℚ)
  meshCount : ℚ
  meshInstanceData : List ℚ
deriving DecidableEq, Repr

/-- FractalTree.loadFromMatrices (src/spiralTree.js lines 41-55):
`matrixCount = matrixData.length / 16` (kept rational: the source does
no divisibility check), `this.matrices = []`, and the instanceMatrix
attribute is set directly from the data. -/
def loadFromMatrices (matrixData : List ℚ) : TreeState :=
  { matrices := [],
    meshCount := (matrixData.length : ℚ) / 16,
    meshInstanceData := matrixData }

/-- The MergedMesh produced by FractalStar.manualMerge and rebuilt by
FractalStar.loadFromData: parallel position/normal/color arrays and an
optional index buffer. -/
structure MergedMesh where
  position : List ℚ
  normal : List ℚ
  color : List ℚ
  index : Option (List ℕ)
deriving DecidableEq, Repr

/-- The star JSON artifact: an object whose keys may be absent
(`none` models a missing or null key). -/
structure StarDoc where
  position : Option (List ℚ)
  normal : Option (List ℚ)
  color : Option (List ℚ)
  indices : Option (List ℕ)
deriving DecidableEq, Repr

/-- The star serializer (generate-geometry script / DataExporter):
writes position/normal/color as plain arrays and `indices` as an array
or null. -/
def writeStar (m : MergedMesh) : StarDoc :=
  { position := some m.position, normal := some m.normal,
    color := some m.color, indices := m.index }

/-- FractalStar.loadFromData (fractalStar.js lines 52-72): rebuilds
typed arrays from the document (`new Float32Array(undefined)` is empty,
so a missing key yields an empty attribute) and sets the index only when
`data.indices` is non-null. -/
def loadFromData (d : StarDoc) : MergedMesh :=
  { position := d.position.getD [],
    normal := d.normal.getD [],
    color := d.color.getD [],
    index := d.indices }

theorem getMatrices_length (s : List (List ℚ)) (h : ∀ m ∈ s, m.length = 16) :
    (getMatrices s).length = 16 * s.length := by
  induction s with
  | nil => rfl
  | cons m rest ih =>
    have hm : m.length = 16 := h m (by simp)
    have hr := ih (fun x hx => h x (by simp [hx]))
    simp only [getMatrices, List.flatMap_cons, id, List.length_append, List.length_cons] at *
    omega

theorem instanceMatrixAt_getMatrices (s : List (List ℚ)) (h : ∀ m ∈ s, m.length = 16) :
    ∀ i, i < s.length → instanceMatrixAt (getMatrices s) i = s.getD i [] := by
  induction s with
  | nil => intro i hi; simp at hi
  | cons m rest ih =>
    intro i hi
    have hm : m.length = 16 := h m (by simp)
    cases i with
    | zero =>
      simp only [instanceMatrixAt, getMatrices, List.flatMap_cons, id, Nat.mul_zero,
        List.drop_zero, List.getD_cons_zero]
      rw [List.take_append_of_le_length (by omega)]
      simp [List.take_of_length_le (by omega : m.length ≤ 16)]
    | succ i =>
      have hi' : i < rest.length := by simpa using hi
      simp only [instanceMatrixAt, getMatrices, List.flatMap_cons, id, List.getD_cons_succ]
      rw [show 16 * (i + 1) = 16 + 16 * i from by ring, ← List.drop_drop,
        List.drop_append_of_le_length (by omega), List.drop_of_length_le (by omega : m.length ≤ 16)]
      simp only [List.nil_append]
      exact ih (fun x hx => h x (by simp [hx])) i hi'

/-- C2: serialization round-trips.  Tree: loading the flat float blob
written by getMatrices reconstructs the same instance count
(blob length / 16) and, for each instance, the same 16-float
column-major matrix.  Star: loading the written
(position, normal, color, indices) document reconstructs arrays equal
to the original MergedMesh, with a null indices key treated as no index
buffer. -/
theorem serialization_roundtrip (s : List (List ℚ)) (h : ∀ m ∈ s, m.length = 16)
    (m : MergedMesh) :
    (loadFromMatrices (getMatrices s)).meshCount = (s.length : ℚ)
    ∧ (∀ i, i < s.length →
        instanceMatrixAt (loadFromMatrices (getMatrices s)).meshInstanceData i = s.getD i [])
    ∧ loadFromData (writeStar m) = m := by
  refine ⟨?_, ?_, ?_⟩
  · show ((getMatrices s).length : ℚ) / 16 = (s.length : ℚ)
    rw [getMatrices_length s h]
    push_cast
    ring
  · intro i hi
    exact instanceMatrixAt_getMatrices s h i hi
  · cases m
    simp [loadFromData, writeStar]

/-- Witness for C2 at a one-instance InstanceSet and a small indexed
MergedMesh. -/
theorem serialization_roundtrip_witness :
    (loadFromMatrices (getMatrices [List.replicate 16 (1 : ℚ)])).meshCount = 1
    ∧ instanceMatrixAt
        (loadFromMatrices (getMatrices [List.replicate 16 (1 : ℚ)])).meshInstanceData 0
        = List.replicate 16 (1 : ℚ)
    ∧ loadFromData (writeStar ⟨[1, 2, 3], [0, 1, 0], [1, 0, 0], some [0]⟩)
        = ⟨[1, 2, 3], [0, 1, 0], [1, 0, 0], some [0]⟩ := by
  have h := serialization_roundtrip [List.replicate 16 (1 : ℚ)] (by simp)
    ⟨[1, 2, 3], [0, 1, 0], [1, 0, 0], some [0]⟩
  refine ⟨by simpa using h.1, by simpa using h.2.1 0 (by decide), h.2.2⟩

/-- `x || d` for an optional integer JS number: the default is used when
the key is missing/undefined or its value is 0 (falsy). -/
def jsOrZ (v : Option ℤ) (d : ℤ) : ℤ :=
  match v with
  | none => d
  | some x => if x = 0 then d else x

/-- `x || d` for an optional rational JS number. -/
def jsOrQ (v : Option ℚ) (d : ℚ) : ℚ :=
  match v with
  | none => d
  | some x => if x = 0 then d else x

/-- `x || d` for an optional natural JS number. -/
def jsOrN (v : Option ℕ) (d : ℕ) : ℕ :=
  match v with
  | none => d
  | some x => if x = 0 then d else x

/-- The options object passed to the FractalTree constructor.  `none`
models a key that is absent from the object.  coneColor is omitted
(not a generation parameter). -/
structure TreeOptions where
  maxLevel : Option ℤ := none
  height : Option ℚ := none
  radius : Option ℚ := none
  ringCount : Option ℕ := none
  branchesPerRing : Option ℕ := none
  ringOffset : Option ℚ := none
  scaleFactor : Option ℚ := none
  taperStart : Option ℚ := none
  spineWidthRatio : Option ℚ := none
  preloadedMatrices : Option (List ℚ) := none
deriving DecidableEq, Repr

/-- The defaulted fields written first in the FractalTree constructor's
object literal (src/spiralTree.js lines 6-16): each
`params.x || default`. -/
def treeDefaulted (o : TreeOptions) : TreeParams :=
  { maxLevel := jsOrZ o.maxLevel 3,
    height := jsOrQ o.height 10,
    radius := jsOrQ o.radius 4,
    ringCount := jsOrN o.ringCount 8,
    branchesPerRing := jsOrN o.branchesPerRing 6,
    ringOffset := jsOrQ o.ringOffset 0,
    scaleFactor := jsOrQ o.scaleFactor (3 / 5),
    taperStart := jsOrQ o.taperStart 0,
    spineWidthRatio := jsOrQ o.spineWidthRatio 1 }

/-- The effective this.params of a FractalTree: the defaulted literal is
followed by the `...params` spread (src/spiralTree.js line 17), so any
key present in the options object overrides the defaulted value — even
a falsy one. -/
def treeParams (o : TreeOptions) : TreeParams :=
  let d := treeDefaulted o
  { maxLevel := o.maxLevel.getD d.maxLevel,
    height := o.height.getD d.height,
    radius := o.radius.getD d.radius,
    ringCount := o.ringCount.getD d.ringCount,
    branchesPerRing := o.branchesPerRing.getD d.branchesPerRing,
    ringOffset := o.ringOffset.getD d.ringOffset,
    scaleFactor := o.scaleFactor.getD d.scaleFactor,
    taperStart := o.taperStart.getD d.taperStart,
    spineWidthRatio := o.spineWidthRatio.getD d.spineWidthRatio }

/-- The options object passed to the FractalStar constructor (numeric
generation parameters only; colors and position are presentation). -/
structure StarOptions where
  maxLevel : Option ℤ := none
  radius : Option ℚ := none
  preloadedData : Option StarDoc := none
deriving DecidableEq, Repr

/-- FractalStar constructor: `this.maxLevel = options.maxLevel || 3`
(fractalStar.js line 6; no trailing spread here). -/
def starMaxLevel (o : StarOptions) : ℤ :=
  jsOrZ o.maxLevel 3

/-- FractalStar constructor: `this.radius = options.radius || 1.2`
(fractalStar.js line 7). -/
def starRadius (o : StarOptions) : ℚ :=
  jsOrQ o.radius (6 / 5)

/-- The FractalTree constructor (src/spiralTree.js lines 4-39): if
preloadedMatrices is present (a typed array is truthy even when empty)
the matrices are loaded, otherwise generate() runs with the effective
parameters. -/
def constructFractalTree (o : TreeOptions) (ops : MathOps) : TreeState :=
  match o.preloadedMatrices with
  | some data => loadFromMatrices data
  | none =>
      let ms := generate (treeParams o) ops
      { matrices := ms, meshCount := (ms.length : ℚ), meshInstanceData := getMatrices ms }

/-- C7 (counterexample): passing maxLevel: 0 to the FractalTree
constructor yields effective maxLevel 0, not the built-in default 3 —
the trailing `...params` spread overrides the `|| 3` defaulting for any
key present in the options object.  This refutes the claim that a zero
parameter falls back to the default. -/
theorem zero_param_not_defaulted_counterexample :
    (treeParams { maxLevel := some 0 }).maxLevel = 0 ∧
      (treeParams { maxLevel := some 0 }).maxLevel ≠ 3 := by
  constructor <;> decide

/-- C7 (amended): for the tree, a parameter key absent from the options
object falls back to the built-in default, but a key present with value
0 keeps that value (the `...params` spread wins over the `|| default`
lines); each effective field equals the raw option value when present
and the default otherwise.  For the star (no spread), a parameter that
is missing or zero falls back to its default.  Construction is total in
either case. -/
theorem parameter_default_policy (o : TreeOptions) (so : StarOptions) :
    ((treeParams o).maxLevel = o.maxLevel.getD 3
      ∧ (treeParams o).height = o.height.getD 10
      ∧ (treeParams o).radius = o.radius.getD 4
      ∧ (treeParams o).ringCount = o.ringCount.getD 8
      ∧ (treeParams o).branchesPerRing = o.branchesPerRing.getD 6
      ∧ (treeParams o).ringOffset = o.ringOffset.getD 0
      ∧ (treeParams o).scaleFactor = o.scaleFactor.getD (3 / 5)
      ∧ (treeParams o).taperStart = o.taperStart.getD 0
      ∧ (treeParams o).spineWidthRatio = o.spineWidthRatio.getD 1)
    ∧ ((so.maxLevel = none ∨ so.maxLevel = some 0) → starMaxLevel so = 3)
    ∧ ((so.radius = none ∨ so.radius = some 0) → starRadius so = 6 / 5) := by
  refine ⟨⟨?_, ?_, ?_, ?_, ?_, ?_, ?_, ?_, ?_⟩, ?_, ?_⟩
  · cases h : o.maxLevel <;> simp [treeParams, treeDefaulted, jsOrZ, h]
  · cases h : o.height <;> simp [treeParams, treeDefaulted, jsOrQ, h]
  · cases h : o.radius <;> simp [treeParams, treeDefaulted, jsOrQ, h]
  · cases h : o.ringCount <;> simp [treeParams, treeDefaulted, jsOrN, h]
  · cases h : o.branchesPerRing <;> simp [treeParams, treeDefaulted, jsOrN, h]
  · cases h : o.ringOffset <;> simp [treeParams, treeDefaulted, jsOrQ, h]
  · cases h : o.scaleFactor <;> simp [treeParams, treeDefaulted, jsOrQ, h]
  · cases h : o.taperStart <;> simp [treeParams, treeDefaulted, jsOrQ, h]
  · cases h : o.spineWidthRatio <;> simp [treeParams, treeDefaulted, jsOrQ, h]
  · rintro (h | h) <;> simp [starMaxLevel, jsOrZ, h]
  · rintro (h | h) <;> simp [starRadius, jsOrQ, h]

/-- Witness for C7 (amended) at concrete options: an empty tree options
object takes every default, and a star options object with maxLevel 0
and no radius takes both defaults. -/
theorem parameter_default_policy_witness :
    (treeParams {}).maxLevel = 3 ∧ (treeParams {}).scaleFactor = 3 / 5
      ∧ starMaxLevel { maxLevel := some 0 } = 3
      ∧ starRadius { maxLevel := some 0 } = 6 / 5 := by
  have h := parameter_default_policy {} { maxLevel := some 0 }
  exact ⟨h.1.1, h.1.2.2.2.2.2.2.1, h.2.1 (Or.inr rfl), h.2.2 (Or.inl rfl)⟩

/-- C10: constructing a FractalTree from a preloadedMatrices array
leaves the internal matrices list empty (loadFromMatrices clears it and
never repopulates it), so a subsequent getMatrices() call returns a
flat array of length 0 regardless of how many instances were loaded —
re-serializing a loaded tree yields an empty blob. -/
theorem preloaded_tree_reserialization_empty (o : TreeOptions) (ops : MathOps)
    (data : List ℚ) (h : o.preloadedMatrices = some data) :
    (constructFractalTree o ops).matrices = []
    ∧ getMatrices (constructFractalTree o ops).matrices = []
    ∧ (getMatrices (constructFractalTree o ops).matrices).length = 0 := by
  unfold constructFractalTree
  rw [h]
  exact ⟨rfl, rfl, rfl⟩

/-- Witness for C10: a preloaded blob of 32 floats (2 instances) still
re-serializes to the empty blob. -/
theorem preloaded_tree_reserialization_empty_witness :
    (constructFractalTree { preloadedMatrices := some (List.replicate 32 1) } trivOps).matrices = []
    ∧ getMatrices (constructFractalTree { preloadedMatrices := some (List.replicate 32 1) }
        trivOps).matrices = [] := by
  have h := preloaded_tree_reserialization_empty
    { preloadedMatrices := some (List.replicate 32 1) } trivOps (List.replicate 32 1) rfl
  exact ⟨h.1, h.2.1⟩

/-- The artifacts obtained by loadGeometry (src/main.js lines 53-69):
`none` models a failed fetch (response not ok, unreadable body, or JSON
parse failure), which throws and routes init to its catch block.  A
successfully fetched value is passed through with no validation. -/
structure Artifacts where
  treeBlob : Option (List ℚ)
  starDoc : Option StarDoc
deriving DecidableEq, Repr

/-- The outcome of init (src/main.js lines 71-89): either both
constructors ran on preloaded data, or the catch block ran the fallback
generation path (recorded here as a marker; the fallback reruns the
generators with the same CONFIG parameters, which is modelled by
constructFractalTree with preloadedMatrices absent). -/
inductive InitResult where
  | preloaded (tree : TreeState) (star : MergedMesh)
  | fallback
deriving DecidableEq, Repr

/-- src/main.js init: when both artifacts were fetched, the
constructors consume them directly (no length or key validation
anywhere on this path, and none of its operations can throw); any fetch
or parse failure throws earlier, and the catch block falls back to
direct generation. -/
def init (a : Artifacts) : InitResult :=
  match a.treeBlob, a.starDoc with
  | some blob, some doc =>
      InitResult.preloaded (loadFromMatrices blob) (loadFromData doc)
  | _, _ => InitResult.fallback

/-- How many times the catch-block fallback generation path ran. -/
def fallbackInvocations : InitResult → ℕ
  | InitResult.preloaded _ _ => 0
  | InitResult.fallback => 1

/-- A star document with the position key missing. -/
def noPositionDoc : StarDoc :=
  { position := none, normal := some [0, 1, 0], color := some [1, 0, 0], indices := none }

/-- C6 (counterexample): a fetched tree blob of 8 floats (32 bytes, not
divisible by 64) and a star document missing the position key are
consumed without any rejection: the fallback path runs 0 times, not 1;
the loaded tree has the fractional instance count 8/16 = 1/2 (truncated
geometry), and the loaded star has an empty position attribute (silently
empty geometry). -/
theorem malformed_artifacts_accepted_counterexample :
    fallbackInvocations (init ⟨some (List.replicate 8 0), some noPositionDoc⟩) = 0
    ∧ fallbackInvocations (init ⟨some (List.replicate 8 0), some noPositionDoc⟩) ≠ 1
    ∧ (loadFromMatrices (List.replicate 8 0)).meshCount = 1 / 2
    ∧ (loadFromData noPositionDoc).position = [] := by
  refine ⟨rfl, by decide, ?_, rfl⟩
  show ((List.replicate (8 : ℕ) (0 : ℚ)).length : ℚ) / 16 = 1 / 2
  norm_num

/-- C6 (amended): the loading path performs no validation at all.  When
both artifacts are fetched, init always takes the preloaded path —
fallback runs 0 times — passing the blob and document to the loaders
unchecked (count = blob length / 16 even when fractional; a missing
position key becomes an empty attribute).  The fallback generation path
runs exactly once precisely when fetching or parsing an artifact fails. -/
theorem init_fallback_behavior (a : Artifacts) :
    (∀ blob doc, a.treeBlob = some blob → a.starDoc = some doc →
      init a = InitResult.preloaded (loadFromMatrices blob) (loadFromData doc)
        ∧ fallbackInvocations (init a) = 0)
    ∧ ((a.treeBlob = none ∨ a.starDoc = none) → fallbackInvocations (init a) = 1) := by
  obtain ⟨tb, sd⟩ := a
  constructor
  · intro blob doc hb hd
    cases hb; cases hd
    exact ⟨rfl, rfl⟩
  · rintro (h | h)
    · subst h; cases sd <;> rfl
    · subst h; cases tb <;> rfl

/-- Witness for C6 (amended): both branches at concrete artifacts. -/
theorem init_fallback_behavior_witness :
    fallbackInvocations (init ⟨some (List.replicate 16 0), some noPositionDoc⟩) = 0
    ∧ fallbackInvocations (init ⟨none, some noPositionDoc⟩) = 1 := by
  refine ⟨((init_fallback_behavior _).1 (List.replicate 16 0) noPositionDoc rfl rfl).2, ?_⟩
  exact (init_fallback_behavior _).2 (Or.inl rfl)

/-- A geometry created by the star generator, identified by its
construction parameters (fractalStar.js lines 82 and 107; the count of
vertices depends only on these).  The in-place translate of the spike
cone moves vertices without changing their number and is omitted. -/
inductive StarGeo where
  | icosahedron (radius : ℚ) (detail : ℕ)
  | cone (radius height : ℚ) (radialSegments : ℕ)
deriving DecidableEq, Repr

/-- A node of the THREE scene graph built by generateSpikeBall: a Mesh
(carrying a geometry) or a Group, each with children.  Local transforms
are omitted: getGeometryData applies them to vertex positions, which
leaves every vertex count unchanged. -/
inductive Obj where
  | mesh (geo : StarGeo) (children : List Obj)
  | group (children : List Obj)

/-- The 6 axis-aligned spike directions (fractalStar.js lines 88-92). -/
def baseDirections : List Vec3 :=
  [⟨1, 0, 0⟩, ⟨-1, 0, 0⟩, ⟨0, 1, 0⟩, ⟨0, -1, 0⟩, ⟨0, 0, 1⟩, ⟨0, 0, -1⟩]

/-- The literal 0.577 used for the diagonal directions. -/
def dDiag : ℚ := 577 / 1000

/-- The 8 diagonal spike directions added only at level 0
(fractalStar.js lines 95-103). -/
def diagonalDirections : List Vec3 :=
  [⟨dDiag, dDiag, dDiag⟩, ⟨-dDiag, dDiag, dDiag⟩,
   ⟨dDiag, -dDiag, dDiag⟩, ⟨-dDiag, -dDiag, dDiag⟩,
   ⟨dDiag, dDiag, -dDiag⟩, ⟨-dDiag, dDiag, -dDiag⟩,
   ⟨dDiag, -dDiag, -dDiag⟩, ⟨-dDiag, -dDiag, -dDiag⟩]

/-- FractalStar.generateSpikeBall (fractalStar.js lines 78-135),
returning the list of children added to the parent object: nothing when
`level >= maxLevel`; otherwise one core mesh (icosahedron of radius
radius·0.3, detail 0) whose children are, per direction, a spike cone
mesh (radius·0.1 base, length radius·1.0, 8 radial segments) always,
followed by a tip container group holding the recursive spike ball
(radius·0.4) only when `level < maxLevel - 1`. -/
def generateSpikeBall (maxLevel : ℤ) (level : ℤ) (radius : ℚ) : List Obj :=
  if _h : maxLevel ≤ level then []
  else
    let directions := baseDirections ++ (if level = 0 then diagonalDirections else [])
    let coreChildren := directions.flatMap (fun _dir =>
      let spike := Obj.mesh (StarGeo.cone (radius * (1 / 10)) (radius * 1) 8) []
      if level < maxLevel - 1 then
        [spike, Obj.group (generateSpikeBall maxLevel (level + 1) (radius * (2 / 5)))]
      else [spike])
    [Obj.mesh (StarGeo.icosahedron (radius * (3 / 10)) 0) coreChildren]
termination_by (maxLevel - level).toNat
decreasing_by simp_wf; omega

mutual
/-- The geometries of the mesh nodes of one scene-graph object in
traversal order, as collected by getGeometryData's group.traverse
(fractalStar.js lines 145-183). -/
def meshGeos : Obj → List StarGeo
  | Obj.mesh g cs => g :: meshGeosList cs
  | Obj.group cs => meshGeosList cs
/-- meshGeos over a list of sibling objects. -/
def meshGeosList : List Obj → List StarGeo
  | [] => []
  | o :: os => meshGeos o ++ meshGeosList os
end

/-- Total vertex count of the MergedMesh produced by getGeometryData +
manualMerge for a star hierarchy: the merge concatenates the per-mesh
vertex arrays, so the count is the sum of the per-geometry vertex
counts.  `vc` gives the vertex count of each THREE geometry; every
statement below holds for all instantiations of `vc`. -/
def starMergedVertexCount (vc : StarGeo → ℕ) (objs : List Obj) : ℕ :=
  ((meshGeosList objs).map vc).sum

/-- FractalStar.generate (fractalStar.js lines 74-76):
generateSpikeBall(this.group, 0, this.radius). -/
def starGenerate (maxLevel : ℤ) (radius : ℚ) : List Obj :=
  generateSpikeBall maxLevel 0 radius

/-- Recognizer for spike (cone) geometries. -/
def isConeGeo : StarGeo → Bool
  | StarGeo.cone _ _ _ => true
  | _ => false

/-- C5 (counterexample): a star with maxLevel = 1 (radius 0.8, the
CONFIG value) produces 14 spike cone meshes in addition to the core —
15 meshes in total, not a single core mesh with zero spikes.  Spike
meshes are attached to the core unconditionally; only the tip-container
recursion is gated by `level < maxLevel - 1`. -/
theorem star_spikes_nonzero_counterexample :
    (meshGeosList (starGenerate 1 (4 / 5))).countP isConeGeo = 14 ∧
      (meshGeosList (starGenerate 1 (4 / 5))).length ≠ 1 := by
  rw [starGenerate, generateSpikeBall]
  rw [dif_neg (by norm_num)]
  norm_num [baseDirections, diagonalDirections, meshGeos, meshGeosList]
  decide

/-- C5 (amended): for star maxLevel = 1 and any radius r, generation
followed by merging produces a MergedMesh whose vertex count is the
core polyhedron's vertex count plus 14 times the spike cone's vertex
count (6 axis spikes plus 8 root-level diagonal spikes; no recursion).
The count equals the core's alone only if spike cones contributed no
vertices. -/
theorem star_maxLevel_one_vertexCount (vc : StarGeo → ℕ) (r : ℚ) :
    starMergedVertexCount vc (starGenerate 1 r) =
      vc (StarGeo.icosahedron (r * (3 / 10)) 0) +
        14 * vc (StarGeo.cone (r * (1 / 10)) (r * 1) 8) := by
  rw [starGenerate, generateSpikeBall]
  rw [dif_neg (by norm_num)]
  norm_num [baseDirections, diagonalDirections, starMergedVertexCount, meshGeos, meshGeosList]
  ring

/-- A BufferGeometry entering manualMerge: a position attribute and
optional normal/color attributes (flat float arrays), plus an optional
index buffer.  A BufferAttribute is represented by its flat array;
its `count` is array length / itemSize (itemSize 3). -/
structure BufferGeo where
  position : List ℚ
  normal : Option (List ℚ)
  color : Option (List ℚ)
  index : Option (List ℕ)
deriving DecidableEq, Repr

/-- `g.attributes.position.count`: vertex count of one geometry. -/
def geoCount (g : BufferGeo) : ℕ := g.position.length / 3

/-- `totalVertices` accumulated by the first forEach of manualMerge. -/
def totalVerticesOf (gs : List BufferGeo) : ℕ := (gs.map geoCount).sum

/-- `totalIndices` accumulated by the first forEach of manualMerge. -/
def totalIndicesOf (gs : List BufferGeo) : ℕ :=
  (gs.map (fun g => (g.index.getD []).length)).sum

/-- TypedArray.set(vals, off): overwrite `vals.length` elements starting
at `off`.  The JS call throws on overflow instead of growing the buffer;
the out-of-bounds case is modelled as a no-op (it never occurs for the
in-contract inputs considered here), so the buffer length is invariant. -/
def setSlice {α : Type} (buf : List α) (off : ℕ) (vals : List α) : List α :=
  if off + vals.length ≤ buf.length then
    buf.take off ++ vals ++ buf.drop (off + vals.length)
  else buf

/-- The loop state of manualMerge's second forEach (fractalStar.js
lines 209-230): the output buffers plus the running vertex and index
offsets. -/
structure MergeState where
  positions : List ℚ
  normals : List ℚ
  colors : List ℚ
  indices : List ℕ
  vOffset : ℕ
  iOffset : ℕ

/-- One iteration of manualMerge's second forEach (fractalStar.js
lines 212-230): write positions at vOffset*3 always, normals/colors at
vOffset*3 when the attribute exists, remap and write the index chunk at
iOffset when the geometry is indexed, then advance the offsets. -/
def mergeStep (st : MergeState) (g : BufferGeo) : MergeState :=
  let st1 := { st with positions := setSlice st.positions (st.vOffset * 3) g.position }
  let st2 := match g.normal with
    | some n => { st1 with normals := setSlice st1.normals (st.vOffset * 3) n }
    | none => st1
  let st3 := match g.color with
    | some c => { st2 with colors := setSlice st2.colors (st.vOffset * 3) c }
    | none => st2
  let st4 := match g.index with
    | some ind =>
        { st3 with
          indices := setSlice st3.indices st.iOffset (ind.map (fun k => k + st.vOffset)),
          iOffset := st.iOffset + ind.length }
    | none => st3
  { st4 with vOffset := st.vOffset + geoCount g }

/-- FractalStar.manualMerge (fractalStar.js lines 195-238): allocate
position/normal/color buffers of length totalVertices*3 and an index
buffer of length totalIndices (null — `none` — when totalIndices is 0),
then run the merge loop over the geometries in traversal order. -/
def manualMerge (gs : List BufferGeo) : MergedMesh :=
  let totalVertices := totalVerticesOf gs
  let totalIndices := totalIndicesOf gs
  let st0 : MergeState :=
    { positions := List.replicate (totalVertices * 3) 0,
      normals := List.replicate (totalVertices * 3) 0,
      colors := List.replicate (totalVertices * 3) 0,
      indices := List.replicate totalIndices 0,
      vOffset := 0, iOffset := 0 }
  let st := gs.foldl mergeStep st0
  { position := st.positions, normal := st.normals, color := st.colors,
    index := if totalIndices > 0 then some st.indices else none }

theorem setSlice_length {α : Type} (buf : List α) (off : ℕ) (vals : List α) :
    (setSlice buf off vals).length = buf.length := by
  unfold setSlice
  split
  · rename_i hle
    simp only [List.length_append, List.length_take, List.length_drop]
    omega
  · rfl

theorem mergeStep_lengths (st : MergeState) (g : BufferGeo) :
    (mergeStep st g).positions.length = st.positions.length
    ∧ (mergeStep st g).normals.length = st.normals.length
    ∧ (mergeStep st g).colors.length = st.colors.length
    ∧ (mergeStep st g).indices.length = st.indices.length := by
  obtain ⟨pos, nrm, col, ind⟩ := g
  cases nrm <;> cases col <;> cases ind <;>
    simp [mergeStep, setSlice_length]

theorem mergeStep_vOffset (st : MergeState) (g : BufferGeo) :
    (mergeStep st g).vOffset = st.vOffset + geoCount g := by
  obtain ⟨pos, nrm, col, ind⟩ := g
  cases nrm <;> cases col <;> cases ind <;> rfl

theorem mergeStep_indices (st : MergeState) (g : BufferGeo) :
    (mergeStep st g).indices =
      match g.index with
      | some ind => setSlice st.indices st.iOffset (ind.map (fun k => k + st.vOffset))
      | none => st.indices := by
  obtain ⟨pos, nrm, col, ind⟩ := g
  cases nrm <;> cases col <;> cases ind <;> rfl

theorem foldl_mergeStep_lengths (gs : List BufferGeo) (st : MergeState) :
    (gs.foldl mergeStep st).positions.length = st.positions.length
    ∧ (gs.foldl mergeStep st).normals.length = st.normals.length
    ∧ (gs.foldl mergeStep st).colors.length = st.colors.length := by
  induction gs generalizing st with
  | nil => exact ⟨rfl, rfl, rfl⟩
  | cons g rest ih =>
    simp only [List.foldl_cons]
    obtain ⟨h1, h2, h3⟩ := ih (mergeStep st g)
    obtain ⟨m1, m2, m3, _⟩ := mergeStep_lengths st g
    exact ⟨h1.trans m1, h2.trans m2, h3.trans m3⟩

theorem setSlice_bound {α : Type} (P : α → Prop) (buf : List α) (off : ℕ) (vals : List α)
    (hb : ∀ v ∈ buf, P v) (hv : ∀ v ∈ vals, P v) :
    ∀ v ∈ setSlice buf off vals, P v := by
  intro v hm
  unfold setSlice at hm
  split at hm
  · rcases List.mem_append.mp hm with h | h
    · rcases List.mem_append.mp h with h | h
      · exact hb v (List.take_subset _ _ h)
      · exact hv v h
    · exact hb v (List.drop_subset _ _ h)
  · exact hb v hm

theorem foldl_mergeStep_indices_bound (N : ℕ) :
    ∀ (gs : List BufferGeo) (st : MergeState),
    (∀ g ∈ gs, ∀ k ∈ g.index.getD [], k < geoCount g) →
    (∀ v ∈ st.indices, v < N) →
    st.vOffset + totalVerticesOf gs ≤ N →
    ∀ v ∈ (gs.foldl mergeStep st).indices, v < N := by
  intro gs
  induction gs with
  | nil =>
    intro st _ hst _
    simpa using hst
  | cons g rest ih =>
    intro st hidx hst hle
    have htv : totalVerticesOf (g :: rest) = geoCount g + totalVerticesOf rest := by
      simp [totalVerticesOf]
    simp only [List.foldl_cons]
    apply ih
    · intro g' hg'
      exact hidx g' (by simp [hg'])
    · rw [mergeStep_indices]
      cases hgi : g.index with
      | none => simpa using hst
      | some ind =>
        simp only
        apply setSlice_bound _ _ _ _ hst
        intro v hv
        obtain ⟨k, hk, rfl⟩ := List.mem_map.mp hv
        have hk' : k < geoCount g := hidx g (by simp) k (by simp [hgi, hk])
        omega
    · rw [mergeStep_vOffset]
      omega

theorem totalVertices_pos (gs : List BufferGeo)
    (hidx : ∀ g ∈ gs, ∀ k ∈ g.index.getD [], k < geoCount g)
    (hti : 0 < totalIndicesOf gs) : 0 < totalVerticesOf gs := by
  induction gs with
  | nil => simp [totalIndicesOf] at hti
  | cons g rest ih =>
    simp only [totalIndicesOf, totalVerticesOf, List.map_cons, List.sum_cons] at hti ⊢
    by_cases hg : 0 < (g.index.getD []).length
    · obtain ⟨k, hk⟩ := List.exists_mem_of_length_pos hg
      have := hidx g (by simp) k hk
      omega
    · have h1 : 0 < totalIndicesOf rest := by
        simp only [totalIndicesOf]
        omega
      have h2 := ih (fun g' hg' => hidx g' (by simp [hg'])) h1
      simp only [totalVerticesOf] at h2
      omega

/-- C3: for every list of input geometries (each with a position
attribute, optional normal/color attributes of matching vertex count,
and an optional index buffer whose entries are all below that
geometry's vertex count), manualMerge's output satisfies
positions.length = normals.length = colors.length =
3 · totalVertexCount, and, when the merged index buffer is present,
every merged index value (each node's indices shifted by the running
vertex offset) is strictly below totalVertexCount. -/
theorem manualMerge_invariants (gs : List BufferGeo)
    (_hpos : ∀ g ∈ gs, g.position.length = 3 * geoCount g)
    (_hnrm : ∀ g ∈ gs, ∀ n, g.normal = some n → n.length = g.position.length)
    (_hcol : ∀ g ∈ gs, ∀ c, g.color = some c → c.length = g.position.length)
    (hidx : ∀ g ∈ gs, ∀ k ∈ g.index.getD [], k < geoCount g) :
    (manualMerge gs).position.length = 3 * totalVerticesOf gs
    ∧ (manualMerge gs).normal.length = 3 * totalVerticesOf gs
    ∧ (manualMerge gs).color.length = 3 * totalVerticesOf gs
    ∧ ∀ l, (manualMerge gs).index = some l → ∀ v ∈ l, v < totalVerticesOf gs := by
  unfold manualMerge
  simp only
  obtain ⟨h1, h2, h3⟩ := foldl_mergeStep_lengths gs
    { positions := List.replicate (totalVerticesOf gs * 3) 0,
      normals := List.replicate (totalVerticesOf gs * 3) 0,
      colors := List.replicate (totalVerticesOf gs * 3) 0,
      indices := List.replicate (totalIndicesOf gs) 0,
      vOffset := 0, iOffset := 0 }
  refine ⟨?_, ?_, ?_, ?_⟩
  · rw [h1]; simp [List.length_replicate]; ring
  · rw [h2]; simp [List.length_replicate]; ring
  · rw [h3]; simp [List.length_replicate]; ring
  · intro l hl
    split at hl
    · rename_i hti
      cases hl
      apply foldl_mergeStep_indices_bound (totalVerticesOf gs) gs _ hidx
      · intro v hv
        have hv0 : v = 0 := List.eq_of_mem_replicate hv
        have := totalVertices_pos gs hidx hti
        omega
      · simp
    · cases hl

/-- A concrete two-vertex indexed geometry for the C3 witness. -/
def mergeWitnessGeo : BufferGeo :=
  { position := [1, 2, 3, 4, 5, 6], normal := none, color := none, index := some [0, 1] }

/-- Witness for C3 at a single two-vertex indexed geometry. -/
theorem manualMerge_invariants_witness :
    (manualMerge [mergeWitnessGeo]).position.length = 3 * totalVerticesOf [mergeWitnessGeo]
    ∧ (manualMerge [mergeWitnessGeo]).normal.length = 3 * totalVerticesOf [mergeWitnessGeo]
    ∧ (manualMerge [mergeWitnessGeo]).color.length = 3 * totalVerticesOf [mergeWitnessGeo]
    ∧ ∀ l, (manualMerge [mergeWitnessGeo]).index = some l →
        ∀ v ∈ l, v < totalVerticesOf [mergeWitnessGeo] :=
  manualMerge_invariants [mergeWitnessGeo]
    (by intro g hg; simp only [List.mem_singleton] at hg; subst hg; decide)
    (by intro g hg n hn; simp only [List.mem_singleton] at hg; subst hg;
        simp [mergeWitnessGeo] at hn)
    (by intro g hg c hc; simp only [List.mem_singleton] at hg; subst hg;
        simp [mergeWitnessGeo] at hc)
    (by intro g hg k hk; simp only [List.mem_singleton] at hg; subst hg;
        revert hk; revert k; decide)
